import Mathlib

/-!
Verification of the hoomd-blue load-balancing and force-attachment layer.

The Python sources embedded here are src/hoomd/tune/balance.py and
src/hoomd/md/force.py.  Pure control flow (device-keyed class selection,
guarded property access, parameter get/set dispatch) is translated directly
from the Python source.  The native balancing algorithm itself (the C++
LoadBalancer engine) is not part of the Python sources; the definitions for
it are modelled from the specification and are marked as such in their doc
comments.
-/

/-- Execution device of a simulation: hoomd.device.CPU or hoomd.device.GPU. -/
inductive Device where
  | cpu
  | gpu
  deriving DecidableEq

/-- Python exception kinds raised by the embedded code paths. -/
inductive PyError where
  | runtimeError (msg : String)
  | attributeError (msg : String)
  | keyError (key : String)
  | typeError (key : String)
  deriving DecidableEq

/-- From LoadBalancer._attach in balance.py: the native engine class name is
LoadBalancerGPU when the simulation device is a GPU, else LoadBalancer. -/
def loadBalancerCppClass (d : Device) : String :=
  if d = Device.gpu then "LoadBalancerGPU" else "LoadBalancer"

/-- From Active._attach in force.py: ActiveForceCompute when the device is a
CPU, else ActiveForceComputeGPU. -/
def activeCppClass (d : Device) : String :=
  if d = Device.cpu then "ActiveForceCompute" else "ActiveForceComputeGPU"

/-- From ActiveOnManifold._attach in force.py: the looked-up class name is
built by appending the manifold constraint class name to
ActiveForceConstraintCompute, then appending GPU when the device is a GPU. -/
def activeOnManifoldCppClass (manifoldClassName : String) (d : Device) : String :=
  let base := "ActiveForceConstraintCompute" ++ manifoldClassName
  if d = Device.gpu then base ++ "GPU" else base

/-- State of a Custom force object relevant to local force array access:
the simulation device and the _in_context_manager flag (force.py). -/
structure Custom where
  device : Device
  in_context_manager : Bool
  deriving DecidableEq

/-- Result object of Custom.gpu_local_force_arrays (wraps the force). -/
structure ForceLocalAccessGPU where
  force : Custom
  deriving DecidableEq

/-- From Custom.gpu_local_force_arrays in force.py: raises RuntimeError when
the device is a GPU (the guard condition in the source is isinstance GPU),
then raises RuntimeError when inside another local force arrays context
manager, otherwise returns a ForceLocalAccessGPU wrapping the force. -/
def Custom.gpu_local_force_arrays (c : Custom) : Except PyError ForceLocalAccessGPU :=
  if c.device = Device.gpu then
    Except.error (PyError.runtimeError
      "Cannot access gpu_local_force_arrays without a GPU device")
  else if c.in_context_manager then
    Except.error (PyError.runtimeError
      "Cannot enter gpu_local_force_arrays context manager inside another local_force_arrays context manager")
  else
    Except.ok ⟨c⟩

/-- Python-side state of an ActiveOnManifold object: the local parameter
store (_param_dict) and, when attached, the native engine attribute map
(_cpp_obj).  Attachment is keyed on whether _cpp_obj is present. -/
structure ActiveOnManifold (V : Type) where
  param_dict : String → V
  cpp_obj : Option (String → V)

/-- From ActiveOnManifold._getattr_param in force.py: when attached,
manifold_constraint is read from the local parameter store and every other
parameter is read through the native engine handle; when detached, all
parameters are read from the local store. -/
def ActiveOnManifold.getattr_param {V : Type} (o : ActiveOnManifold V)
    (attr : String) : V :=
  match o.cpp_obj with
  | some cpp =>
      if attr = "manifold_constraint" then o.param_dict attr else cpp attr
  | none => o.param_dict attr

/-- Modelled from the spec: the base-class parameter setter (the
_setattr_param of the _HOOMDBaseObject base class is not among the sources).
Per the spec design note, the object either holds local configuration values
when detached or delegates live writes to the attached native engine. -/
def ActiveOnManifold.base_setattr_param {V : Type} (o : ActiveOnManifold V)
    (attr : String) (value : V) : Except PyError (ActiveOnManifold V) :=
  match o.cpp_obj with
  | some cpp =>
      Except.ok { o with cpp_obj := some (fun a => if a = attr then value else cpp a) }
  | none =>
      Except.ok { o with param_dict := fun a => if a = attr then value else o.param_dict a }

/-- From ActiveOnManifold._setattr_param in force.py: setting
manifold_constraint raises AttributeError before any state change; every
other parameter is forwarded to the base-class setter. -/
def ActiveOnManifold.setattr_param {V : Type} (o : ActiveOnManifold V)
    (attr : String) (value : V) : Except PyError (ActiveOnManifold V) :=
  if attr = "manifold_constraint" then
    Except.error (PyError.attributeError
      "Cannot set manifold_constraint after construction.")
  else
    o.base_setattr_param attr value

/-- Resulting object state after a setattr call under Python semantics: an
exception leaves the object unchanged. -/
def ActiveOnManifold.apply_setattr {V : Type} (o : ActiveOnManifold V)
    (attr : String) (value : V) : ActiveOnManifold V :=
  match o.setattr_param attr value with
  | Except.ok o' => o'
  | Except.error _ => o

/-- Sample detached ActiveOnManifold object used by witnesses. -/
def aomDetachedSample : ActiveOnManifold ℤ :=
  ⟨fun a => if a = "manifold_constraint" then 1 else 2, none⟩

/-- Sample native engine attribute map used by witnesses. -/
def aomCppSample : String → ℤ :=
  fun a => if a = "manifold_constraint" then 3 else 4

/-- Sample attached ActiveOnManifold object used by witnesses. -/
def aomAttachedSample : ActiveOnManifold ℤ :=
  ⟨fun a => if a = "manifold_constraint" then 1 else 2, some aomCppSample⟩

/-- C5: the native engine class selected for LoadBalancer is the GPU variant
exactly when the device is a GPU and the CPU variant otherwise, and the
Active force selects ActiveForceComputeGPU exactly when the device is not a
CPU. -/
theorem c5_device_keyed_engine_selection :
    ∀ d : Device,
      (loadBalancerCppClass d = "LoadBalancerGPU" ↔ d = Device.gpu) ∧
      (loadBalancerCppClass d = "LoadBalancer" ↔ d ≠ Device.gpu) ∧
      (activeCppClass d = "ActiveForceComputeGPU" ↔ d ≠ Device.cpu) ∧
      (activeCppClass d = "ActiveForceCompute" ↔ d = Device.cpu) := by
  intro d
  cases d <;> refine ⟨?_, ?_, ?_, ?_⟩ <;>
    simp [loadBalancerCppClass, activeCppClass]

/-- C6: the class name looked up by ActiveOnManifold attachment is exactly
ActiveForceConstraintCompute concatenated with the manifold class name,
with GPU appended exactly when the device is a GPU. -/
theorem c6_manifold_class_name_lookup :
    ∀ (m : String) (d : Device),
      (d = Device.gpu →
        activeOnManifoldCppClass m d = "ActiveForceConstraintCompute" ++ m ++ "GPU") ∧
      (d ≠ Device.gpu →
        activeOnManifoldCppClass m d = "ActiveForceConstraintCompute" ++ m) := by
  intro m d
  cases d <;> constructor <;> intro h <;> simp_all [activeOnManifoldCppClass]

/-- Witness for C6 at a concrete manifold name and both devices. -/
theorem c6_manifold_class_name_lookup_witness :
    activeOnManifoldCppClass "Sphere" Device.gpu =
      "ActiveForceConstraintCompute" ++ "Sphere" ++ "GPU" ∧
    activeOnManifoldCppClass "Sphere" Device.cpu =
      "ActiveForceConstraintCompute" ++ "Sphere" :=
  ⟨(c6_manifold_class_name_lookup "Sphere" Device.gpu).1 rfl,
   (c6_manifold_class_name_lookup "Sphere" Device.cpu).2 (by decide)⟩

/-- C7: parameter reads on ActiveOnManifold branch on the attached tag:
detached reads come from the local store; attached reads of
manifold_constraint come from the local store and all other attached reads
go through the native engine handle. -/
theorem c7_getattr_param_branches :
    ∀ (V : Type) (o : ActiveOnManifold V) (attr : String),
      (o.cpp_obj = none → o.getattr_param attr = o.param_dict attr) ∧
      (∀ cpp, o.cpp_obj = some cpp → attr = "manifold_constraint" →
        o.getattr_param attr = o.param_dict attr) ∧
      (∀ cpp, o.cpp_obj = some cpp → attr ≠ "manifold_constraint" →
        o.getattr_param attr = cpp attr) := by
  intro V o attr
  refine ⟨fun h => ?_, fun cpp h ha => ?_, fun cpp h ha => ?_⟩
  · simp [ActiveOnManifold.getattr_param, h]
  · simp [ActiveOnManifold.getattr_param, h, ha]
  · simp [ActiveOnManifold.getattr_param, h, ha]

/-- Witness for C7 on concrete attached and detached objects. -/
theorem c7_getattr_param_branches_witness :
    aomDetachedSample.getattr_param "filter" = aomDetachedSample.param_dict "filter" ∧
    aomAttachedSample.getattr_param "manifold_constraint" =
      aomAttachedSample.param_dict "manifold_constraint" ∧
    aomAttachedSample.getattr_param "filter" = aomCppSample "filter" :=
  ⟨(c7_getattr_param_branches ℤ aomDetachedSample "filter").1 rfl,
   (c7_getattr_param_branches ℤ aomAttachedSample "manifold_constraint").2.1
     aomCppSample rfl rfl,
   (c7_getattr_param_branches ℤ aomAttachedSample "filter").2.2
     aomCppSample rfl (by decide)⟩

/-- C8: gpu_local_force_arrays raises RuntimeError whenever the device is a
GPU (the guard in the source tests isinstance GPU even though its message
reads the other way), raises RuntimeError when inside another local force
arrays context manager, and returns a ForceLocalAccessGPU only when the
device is not a GPU and no context manager is active. -/
theorem c8_gpu_local_force_arrays_guard :
    ∀ c : Custom,
      (c.device = Device.gpu →
        c.gpu_local_force_arrays = Except.error (PyError.runtimeError
          "Cannot access gpu_local_force_arrays without a GPU device")) ∧
      (c.device ≠ Device.gpu → c.in_context_manager = true →
        c.gpu_local_force_arrays = Except.error (PyError.runtimeError
          "Cannot enter gpu_local_force_arrays context manager inside another local_force_arrays context manager")) ∧
      (c.device ≠ Device.gpu → c.in_context_manager = false →
        c.gpu_local_force_arrays = Except.ok ⟨c⟩) := by
  intro c
  refine ⟨fun h => ?_, fun h hc => ?_, fun h hc => ?_⟩
  · simp [Custom.gpu_local_force_arrays, h]
  · simp [Custom.gpu_local_force_arrays, h, hc]
  · simp [Custom.gpu_local_force_arrays, h, hc]

/-- Witness for C8 on the three concrete guard situations. -/
theorem c8_gpu_local_force_arrays_guard_witness :
    (Custom.mk Device.gpu false).gpu_local_force_arrays =
      Except.error (PyError.runtimeError
        "Cannot access gpu_local_force_arrays without a GPU device") ∧
    (Custom.mk Device.cpu true).gpu_local_force_arrays =
      Except.error (PyError.runtimeError
        "Cannot enter gpu_local_force_arrays context manager inside another local_force_arrays context manager") ∧
    (Custom.mk Device.cpu false).gpu_local_force_arrays =
      Except.ok ⟨Custom.mk Device.cpu false⟩ :=
  ⟨(c8_gpu_local_force_arrays_guard (Custom.mk Device.gpu false)).1 rfl,
   (c8_gpu_local_force_arrays_guard (Custom.mk Device.cpu true)).2.1 (by decide) rfl,
   (c8_gpu_local_force_arrays_guard (Custom.mk Device.cpu false)).2.2 (by decide) rfl⟩

/-- C9: setting manifold_constraint on ActiveOnManifold raises
AttributeError whether attached or detached, the stored
manifold_constraint value is unchanged by the failed set, and any other
parameter is forwarded to the base-class setter without this error. -/
theorem c9_setattr_manifold_constraint_guard :
    ∀ (V : Type) (o : ActiveOnManifold V) (v : V),
      o.setattr_param "manifold_constraint" v =
        Except.error (PyError.attributeError
          "Cannot set manifold_constraint after construction.") ∧
      (o.apply_setattr "manifold_constraint" v).getattr_param "manifold_constraint" =
        o.getattr_param "manifold_constraint" ∧
      (∀ attr, attr ≠ "manifold_constraint" →
        o.setattr_param attr v = o.base_setattr_param attr v) := by
  intro V o v
  refine ⟨?_, ?_, fun attr ha => ?_⟩
  · simp [ActiveOnManifold.setattr_param]
  · simp [ActiveOnManifold.apply_setattr, ActiveOnManifold.setattr_param]
  · simp [ActiveOnManifold.setattr_param, ha]

/-- Witness for C9 on concrete attached and detached objects. -/
theorem c9_setattr_manifold_constraint_guard_witness :
    aomAttachedSample.setattr_param "manifold_constraint" 7 =
      Except.error (PyError.attributeError
        "Cannot set manifold_constraint after construction.") ∧
    (aomDetachedSample.apply_setattr "manifold_constraint" 7).getattr_param
        "manifold_constraint" =
      aomDetachedSample.getattr_param "manifold_constraint" ∧
    aomDetachedSample.setattr_param "filter" 7 =
      aomDetachedSample.base_setattr_param "filter" 7 :=
  ⟨(c9_setattr_manifold_constraint_guard ℤ aomAttachedSample 7).1,
   (c9_setattr_manifold_constraint_guard ℤ aomDetachedSample 7).2.1,
   (c9_setattr_manifold_constraint_guard ℤ aomDetachedSample 7).2.2 "filter" (by decide)⟩

/-- Python-level values passed to and stored in a ParameterDict. -/
inductive PyValue where
  | pyBool (b : Bool)
  | pyInt (n : ℤ)
  | pyFloat (q : ℚ)
  | pyTrigger (t : ℕ)
  deriving DecidableEq

/-- Value types recognized by the ParameterDict entries of balance.py. -/
inductive PyType where
  | tBool
  | tInt
  | tFloat
  | tTrigger
  deriving DecidableEq

/-- Modelled from the spec: ParameterDict value coercion (the ParameterDict
class of hoomd.parameterdicts is not among the sources).  A value supplied
for a key is converted to the key's declared type: matching types pass
through, an integer supplied for a float key is widened to a float, and
anything else is a type conversion error. -/
def coerceValue : PyType → PyValue → Option PyValue
  | PyType.tBool, PyValue.pyBool b => some (PyValue.pyBool b)
  | PyType.tInt, PyValue.pyInt n => some (PyValue.pyInt n)
  | PyType.tFloat, PyValue.pyFloat q => some (PyValue.pyFloat q)
  | PyType.tFloat, PyValue.pyInt n => some (PyValue.pyFloat n)
  | PyType.tTrigger, PyValue.pyTrigger t => some (PyValue.pyTrigger t)
  | _, _ => none

/-- A ParameterDict: its declared key/type schema and its current values. -/
structure ParameterDict where
  schema : List (String × PyType)
  values : String → Option PyValue

/-- An empty ParameterDict over a given schema. -/
def ParameterDict.empty (schema : List (String × PyType)) : ParameterDict :=
  ⟨schema, fun _ => none⟩

/-- Declared type of a key, when the schema recognizes it. -/
def ParameterDict.lookupType (pd : ParameterDict) (k : String) : Option PyType :=
  (pd.schema.find? (fun p => p.1 == k)).map Prod.snd

/-- Modelled from the spec: storing one option into a ParameterDict.  Keys
outside the recognized schema are rejected; recognized keys store the
type-coerced value. -/
def ParameterDict.updateOne (pd : ParameterDict) (k : String) (v : PyValue) :
    Except PyError ParameterDict :=
  match pd.lookupType k with
  | none => Except.error (PyError.keyError k)
  | some ty =>
      match coerceValue ty v with
      | none => Except.error (PyError.typeError k)
      | some v' =>
          Except.ok { pd with values := fun a => if a = k then some v' else pd.values a }

/-- Modelled from the spec: updating a ParameterDict with a list of options. -/
def ParameterDict.update (pd : ParameterDict) :
    List (String × PyValue) → Except PyError ParameterDict
  | [] => Except.ok pd
  | (k, v) :: rest => do
      let pd' ← pd.updateOne k v
      pd'.update rest

/-- LoadBalancer ParameterDict schema from balance.py LoadBalancer.__init__,
with the keys and declared types in source order. -/
def loadBalancerSchema : List (String × PyType) :=
  [("x", PyType.tBool), ("y", PyType.tBool), ("z", PyType.tBool),
   ("max_iterations", PyType.tInt), ("tolerance", PyType.tFloat),
   ("trigger", PyType.tTrigger)]

/-- From LoadBalancer.__init__ in balance.py: build the defaults dict from
the six arguments, create the ParameterDict with the declared schema and
update it with the defaults.  The body contains no range validation and no
conditional raise of any kind. -/
def loadBalancerInit (trigger x y z tolerance max_iterations : PyValue) :
    Except PyError ParameterDict :=
  let defaults := [("x", x), ("y", y), ("z", z), ("tolerance", tolerance),
                   ("max_iterations", max_iterations), ("trigger", trigger)]
  (ParameterDict.empty loadBalancerSchema).update defaults

/-- From LoadBalancer.__init__ in balance.py: construction supplying only a
trigger, with the Python default arguments x=True, y=True, z=True,
tolerance=1.02, max_iterations=1. -/
def loadBalancerInitDefault (trigger : PyValue) : Except PyError ParameterDict :=
  loadBalancerInit trigger (PyValue.pyBool true) (PyValue.pyBool true)
    (PyValue.pyBool true) (PyValue.pyFloat (102 / 100)) (PyValue.pyInt 1)

/-- The ParameterDict produced by default construction (total extraction;
construction never fails). -/
def loadBalancerDefaults (tr : ℕ) : ParameterDict :=
  match loadBalancerInitDefault (PyValue.pyTrigger tr) with
  | Except.ok pd => pd
  | Except.error _ => ParameterDict.empty loadBalancerSchema

/-- C1 counterexample: constructing a LoadBalancer with tolerance 0.5 and
max_iterations 0 succeeds with no error, so invalid ranges are not rejected
at construction time. -/
theorem c1_no_range_validation_counterexample :
    (loadBalancerInit (PyValue.pyTrigger 0) (PyValue.pyBool true)
      (PyValue.pyBool true) (PyValue.pyBool true) (PyValue.pyFloat (1 / 2))
      (PyValue.pyInt 0)).isOk = true := by
  rfl

/-- C1 amended: LoadBalancer construction performs no range validation:
every tolerance value (including values below 1.0) and every max_iterations
value (including values below 1) is accepted; the constructor only stores
the type-coerced values. -/
theorem c1_construction_accepts_any_range :
    ∀ (tr : ℕ) (x y z : Bool) (q : ℚ) (m : ℤ),
      (loadBalancerInit (PyValue.pyTrigger tr) (PyValue.pyBool x)
        (PyValue.pyBool y) (PyValue.pyBool z) (PyValue.pyFloat q)
        (PyValue.pyInt m)).isOk = true := by
  intro tr x y z q m
  rfl

/-- C10: default construction yields x=True, y=True, z=True, tolerance=1.02,
max_iterations=1 and trigger; the parameter dictionary recognizes exactly
the keys x, y, z as bool, max_iterations as int, tolerance as float and
trigger as Trigger; a supplied value is coerced to the declared type (an
integer supplied for tolerance is stored as a float). -/
theorem c10_default_construction :
    ∀ tr : ℕ,
      loadBalancerInitDefault (PyValue.pyTrigger tr) =
        Except.ok (loadBalancerDefaults tr) ∧
      (loadBalancerDefaults tr).values "x" = some (PyValue.pyBool true) ∧
      (loadBalancerDefaults tr).values "y" = some (PyValue.pyBool true) ∧
      (loadBalancerDefaults tr).values "z" = some (PyValue.pyBool true) ∧
      (loadBalancerDefaults tr).values "tolerance" =
        some (PyValue.pyFloat (102 / 100)) ∧
      (loadBalancerDefaults tr).values "max_iterations" =
        some (PyValue.pyInt 1) ∧
      (loadBalancerDefaults tr).values "trigger" =
        some (PyValue.pyTrigger tr) ∧
      (loadBalancerDefaults tr).schema = loadBalancerSchema ∧
      (∀ k, ((loadBalancerDefaults tr).values k).isSome = true ↔
        k ∈ ["x", "y", "z", "tolerance", "max_iterations", "trigger"]) ∧
      (∀ n : ℤ,
        (loadBalancerInit (PyValue.pyTrigger tr) (PyValue.pyBool true)
          (PyValue.pyBool true) (PyValue.pyBool true) (PyValue.pyInt n)
          (PyValue.pyInt 1)).map (fun pd => pd.values "tolerance") =
        Except.ok (some (PyValue.pyFloat n))) := by
  intro tr
  refine ⟨rfl, rfl, rfl, rfl, rfl, rfl, rfl, rfl, fun k => ?_, fun n => rfl⟩
  show (if k = "trigger" then some (PyValue.pyTrigger tr)
    else if k = "max_iterations" then some (PyValue.pyInt 1)
    else if k = "tolerance" then some (PyValue.pyFloat (102 / 100))
    else if k = "z" then some (PyValue.pyBool true)
    else if k = "y" then some (PyValue.pyBool true)
    else if k = "x" then some (PyValue.pyBool true)
    else none).isSome = true ↔ _
  split_ifs with h1 h2 h3 h4 h5 h6 <;> simp_all

/-- Distance from boundary i to its left neighbor boundary. -/
def gapL (b : ℕ → ℚ) (i : ℕ) : ℚ := b i - b (i - 1)

/-- Distance from boundary i to its right neighbor boundary. -/
def gapR (b : ℕ → ℚ) (i : ℕ) : ℚ := b (i + 1) - b i

/-- Modelled from the spec: the width of an interior boundary's own slab
(the native AxisRebalancer is not among the sources).  The boundary sits
between two slabs; the smaller adjacent slab width is used. -/
def slabWidth (b : ℕ → ℚ) (i : ℕ) : ℚ := min (gapL b i) (gapR b i)

/-- Modelled from the spec: the distance from boundary i to the nearest
other moving boundary on either side, measured on the current boundaries. -/
def neighborDist (b : ℕ → ℚ) (i : ℕ) : ℚ := min (gapL b i) (gapR b i)

/-- Modelled from the spec: the clamp bound of AxisRebalancer, the minimum
of 5 percent of the boundary's own slab width and 50 percent of the distance
to the nearest other moving boundary on either side. -/
def maxShift (b : ℕ → ℚ) (i : ℕ) : ℚ :=
  min (5 / 100 * slabWidth b i) (1 / 2 * neighborDist b i)

/-- Modelled from the spec: the desired shift of interior boundary i,
proportional to the load difference between the two adjacent slabs and
directed toward the lighter slab.  A zero-load slab pair is excluded from
the proportional computation (shift 0), avoiding division by zero. -/
def rawShift (load : ℕ → ℕ) (b : ℕ → ℚ) (i : ℕ) : ℚ :=
  if load (i - 1) + load i = 0 then 0
  else (((load (i - 1) : ℚ) - (load i : ℚ)) /
    ((load (i - 1) : ℚ) + (load i : ℚ))) * slabWidth b i

/-- Clamp a value into the symmetric interval from -m to m. -/
def clampShift (m x : ℚ) : ℚ := min m (max (-m) x)

/-- Modelled from the spec: the shift actually applied to interior boundary
i, the desired shift clamped to the AxisRebalancer bound. -/
def appliedShift (load : ℕ → ℕ) (b : ℕ → ℚ) (i : ℕ) : ℚ :=
  clampShift (maxShift b i) (rawShift load b i)

/-- Modelled from the spec: new position of boundary i along an axis with n
slabs.  Only interior boundaries (1 to n-1) move; the outer simulation box
edges 0 and n are fixed. -/
def moveBoundary (n : ℕ) (load : ℕ → ℕ) (b : ℕ → ℚ) (i : ℕ) : ℚ :=
  if 1 ≤ i ∧ i < n then b i + appliedShift load b i else b i

/-- Modelled from the spec: one AxisRebalancer pass over an axis.  Disabled
axes pass through unchanged. -/
def rebalanceAxis (enabled : Bool) (n : ℕ) (load : ℕ → ℕ) (b : ℕ → ℚ) :
    ℕ → ℚ :=
  if enabled then fun i => moveBoundary n load b i else b

/-- The decomposition grid: slab counts and boundary coordinates per axis. -/
structure Grid where
  nx : ℕ
  ny : ℕ
  nz : ℕ
  bX : ℕ → ℚ
  bY : ℕ → ℚ
  bZ : ℕ → ℚ

/-- The balancer configuration: enabled axes, tolerance, iteration budget. -/
structure BalanceConfig where
  x : Bool
  y : Bool
  z : Bool
  tolerance : ℚ
  max_iterations : ℕ

/-- Modelled from the spec: the LoadSampler output, per-axis slab loads and
per-rank particle counts over a fixed number of ranks, sampled once per
invocation. -/
structure Loads where
  lx : ℕ → ℕ
  ly : ℕ → ℕ
  lz : ℕ → ℕ
  rank : ℕ → ℕ
  ranks : ℕ

/-- Total particle count, the sum of all per-rank counts. -/
def totalParticles (L : Loads) : ℕ :=
  ((List.range L.ranks).map L.rank).sum

/-- Deviation of the imbalance factor of one rank from 1. -/
def imbalanceDev (L : Loads) (i : ℕ) : ℚ :=
  |((L.rank i : ℚ) * (L.ranks : ℚ)) / (totalParticles L : ℚ) - 1|

/-- Maximum imbalance-factor deviation over all ranks. -/
def maxImbalanceDev (L : Loads) : ℚ :=
  ((List.range L.ranks).map (imbalanceDev L)).foldr max 0

/-- Modelled from the spec: the CheckConverged test, maximum deviation of
the imbalance factor from 1 at most tolerance minus 1. -/
def converged (cfg : BalanceConfig) (L : Loads) : Bool :=
  decide (maxImbalanceDev L ≤ cfg.tolerance - 1)

/-- Modelled from the spec: one Adjust pass, AxisRebalancer applied to each
enabled axis in the fixed axis order. -/
def adjustGrid (cfg : BalanceConfig) (L : Loads) (g : Grid) : Grid :=
  { g with
    bX := rebalanceAxis cfg.x g.nx L.lx g.bX
    bY := rebalanceAxis cfg.y g.ny L.ly g.bY
    bZ := rebalanceAxis cfg.z g.nz L.lz g.bZ }

/-- Modelled from the spec: the IterationController loop, up to the given
iteration budget, stopping early when converged. -/
def balanceLoop (cfg : BalanceConfig) (L : Loads) : ℕ → Grid → Grid
  | 0, g => g
  | k + 1, g =>
      if converged cfg L then g else balanceLoop cfg L k (adjustGrid cfg L g)

/-- Modelled from the spec: one full balancing invocation.  With no
multi-rank decomposition (a single rank) or zero total particles the
invocation is a no-op; otherwise the iteration loop runs. -/
def runInvocation (cfg : BalanceConfig) (L : Loads) (g : Grid) : Grid :=
  if L.ranks ≤ 1 ∨ totalParticles L = 0 then g
  else balanceLoop cfg L cfg.max_iterations g

/-- Modelled from the spec: an invocation as seen by the caller.  No branch
raises; abnormal runtime states degrade to a no-op result. -/
def invoke (cfg : BalanceConfig) (L : Loads) (g : Grid) : Except PyError Grid :=
  Except.ok (runInvocation cfg L g)

/-- An axis boundary sequence with n slabs is strictly increasing. -/
def axisIncreasing (n : ℕ) (b : ℕ → ℚ) : Prop :=
  ∀ j, j < n → b j < b (j + 1)

/-- All three axes of a grid are strictly increasing. -/
def gridIncreasing (g : Grid) : Prop :=
  axisIncreasing g.nx g.bX ∧ axisIncreasing g.ny g.bY ∧ axisIncreasing g.nz g.bZ

/-- The outer box edges of each axis agree between two grids. -/
def outerEdgesEq (g g' : Grid) : Prop :=
  g'.bX 0 = g.bX 0 ∧ g'.bX g.nx = g.bX g.nx ∧
  g'.bY 0 = g.bY 0 ∧ g'.bY g.ny = g.bY g.ny ∧
  g'.bZ 0 = g.bZ 0 ∧ g'.bZ g.nz = g.bZ g.nz

theorem clampShift_abs_le {m : ℚ} (x : ℚ) (hm : 0 ≤ m) :
    |clampShift m x| ≤ m := by
  rw [abs_le]
  constructor
  · exact le_min (by linarith) (le_max_left _ _)
  · exact min_le_left _ _

theorem maxShift_le_left (b : ℕ → ℚ) (i : ℕ) :
    maxShift b i ≤ 1 / 20 * gapL b i := by
  calc maxShift b i ≤ 5 / 100 * slabWidth b i := min_le_left _ _
    _ ≤ 5 / 100 * gapL b i := by
        have h := min_le_left (gapL b i) (gapR b i)
        unfold slabWidth
        nlinarith
    _ = 1 / 20 * gapL b i := by ring

theorem maxShift_le_right (b : ℕ → ℚ) (i : ℕ) :
    maxShift b i ≤ 1 / 20 * gapR b i := by
  calc maxShift b i ≤ 5 / 100 * slabWidth b i := min_le_left _ _
    _ ≤ 5 / 100 * gapR b i := by
        have h := min_le_right (gapL b i) (gapR b i)
        unfold slabWidth
        nlinarith
    _ = 1 / 20 * gapR b i := by ring

theorem maxShift_nonneg {b : ℕ → ℚ} {i : ℕ} (hL : 0 ≤ gapL b i)
    (hR : 0 ≤ gapR b i) : 0 ≤ maxShift b i := by
  have hmin : (0 : ℚ) ≤ min (gapL b i) (gapR b i) := le_min hL hR
  refine le_min ?_ ?_
  · have : (0 : ℚ) ≤ 5 / 100 * min (gapL b i) (gapR b i) := by positivity
    simpa [slabWidth] using this
  · have : (0 : ℚ) ≤ 1 / 2 * min (gapL b i) (gapR b i) := by positivity
    simpa [neighborDist] using this

theorem appliedShift_abs_le {b : ℕ → ℚ} {i : ℕ} (load : ℕ → ℕ)
    (hL : 0 ≤ gapL b i) (hR : 0 ≤ gapR b i) :
    |appliedShift load b i| ≤ 1 / 20 * gapL b i ∧
    |appliedShift load b i| ≤ 1 / 20 * gapR b i := by
  have hclamp := clampShift_abs_le (m := maxShift b i) (rawShift load b i)
    (maxShift_nonneg hL hR)
  exact ⟨le_trans hclamp (maxShift_le_left b i),
    le_trans hclamp (maxShift_le_right b i)⟩

theorem moveBoundary_le_upper {n : ℕ} {b : ℕ → ℚ} (load : ℕ → ℕ)
    (hinc : axisIncreasing n b) {j : ℕ} (hj : j < n) :
    moveBoundary n load b j ≤ b j + 1 / 20 * (b (j + 1) - b j) := by
  unfold moveBoundary
  split
  · next h =>
      obtain ⟨h1, h2⟩ := h
      have hL : 0 ≤ gapL b j := by
        have hj1 : j - 1 < n := lt_of_le_of_lt (Nat.sub_le j 1) h2
        have := hinc (j - 1) hj1
        rw [Nat.sub_add_cancel h1] at this
        unfold gapL
        linarith
      have hR : 0 ≤ gapR b j := by
        have := hinc j hj
        unfold gapR
        linarith
      have habs := (appliedShift_abs_le load hL hR).2
      have : appliedShift load b j ≤ 1 / 20 * gapR b j :=
        le_trans (le_abs_self _) habs
      unfold gapR at this
      linarith
  · have := hinc j hj
    linarith

theorem moveBoundary_ge_lower {n : ℕ} {b : ℕ → ℚ} (load : ℕ → ℕ)
    (hinc : axisIncreasing n b) {j : ℕ} (hj : j < n) :
    b (j + 1) - 1 / 20 * (b (j + 1) - b j) ≤ moveBoundary n load b (j + 1) := by
  unfold moveBoundary
  split
  · next h =>
      obtain ⟨_, h2⟩ := h
      have hL : 0 ≤ gapL b (j + 1) := by
        have := hinc j hj
        unfold gapL
        simp only [Nat.add_sub_cancel]
        linarith
      have hR : 0 ≤ gapR b (j + 1) := by
        have := hinc (j + 1) h2
        unfold gapR
        linarith
      have habs := (appliedShift_abs_le load hL hR).1
      have : -(1 / 20 * gapL b (j + 1)) ≤ appliedShift load b (j + 1) := by
        have := neg_abs_le (appliedShift load b (j + 1))
        linarith
      unfold gapL at this
      simp only [Nat.add_sub_cancel] at this
      linarith
  · have := hinc j hj
    linarith

theorem rebalanceAxis_preserves {n : ℕ} {b : ℕ → ℚ} (enabled : Bool)
    (load : ℕ → ℕ) (hinc : axisIncreasing n b) :
    axisIncreasing n (rebalanceAxis enabled n load b) ∧
    rebalanceAxis enabled n load b 0 = b 0 ∧
    rebalanceAxis enabled n load b n = b n := by
  unfold rebalanceAxis
  cases enabled
  · refine ⟨?_, by simp, by simp⟩
    simpa using hinc
  · simp only [if_pos]
    refine ⟨?_, ?_, ?_⟩
    · intro j hj
      have up := moveBoundary_le_upper load hinc hj
      have lo := moveBoundary_ge_lower load hinc hj
      have hgap := hinc j hj
      linarith
    · unfold moveBoundary
      simp
    · unfold moveBoundary
      simp

theorem adjustGrid_preserves (cfg : BalanceConfig) (L : Loads) {g : Grid}
    (h : gridIncreasing g) :
    gridIncreasing (adjustGrid cfg L g) ∧ outerEdgesEq g (adjustGrid cfg L g) := by
  obtain ⟨hx, hy, hz⟩ := h
  have px := rebalanceAxis_preserves cfg.x L.lx hx
  have py := rebalanceAxis_preserves cfg.y L.ly hy
  have pz := rebalanceAxis_preserves cfg.z L.lz hz
  exact ⟨⟨px.1, py.1, pz.1⟩,
    px.2.1, px.2.2, py.2.1, py.2.2, pz.2.1, pz.2.2⟩

theorem balanceLoop_preserves (cfg : BalanceConfig) (L : Loads) :
    ∀ (k : ℕ) (g : Grid), gridIncreasing g →
      gridIncreasing (balanceLoop cfg L k g) ∧
      outerEdgesEq g (balanceLoop cfg L k g) ∧
      (balanceLoop cfg L k g).nx = g.nx ∧
      (balanceLoop cfg L k g).ny = g.ny ∧
      (balanceLoop cfg L k g).nz = g.nz := by
  intro k
  induction k with
  | zero =>
      intro g h
      exact ⟨h, ⟨rfl, rfl, rfl, rfl, rfl, rfl⟩, rfl, rfl, rfl⟩
  | succ k ih =>
      intro g h
      unfold balanceLoop
      split
      · exact ⟨h, ⟨rfl, rfl, rfl, rfl, rfl, rfl⟩, rfl, rfl, rfl⟩
      · have ha := adjustGrid_preserves cfg L h
        have hb := ih (adjustGrid cfg L g) ha.1
        obtain ⟨e1, e2, e3, e4, e5, e6⟩ := ha.2
        obtain ⟨f1, f2, f3, f4, f5, f6⟩ := hb.2.1
        exact ⟨hb.1,
          ⟨f1.trans e1, f2.trans e2, f3.trans e3, f4.trans e4,
           f5.trans e5, f6.trans e6⟩,
          hb.2.2.1, hb.2.2.2.1, hb.2.2.2.2⟩

/-- C2: after any balancing invocation on a grid whose axes are strictly
increasing, each axis's boundary sequence remains strictly increasing and
the outer simulation box edges of each axis are unchanged. -/
theorem c2_invocation_preserves_boundary_invariants :
    ∀ (cfg : BalanceConfig) (L : Loads) (g : Grid),
      gridIncreasing g →
      gridIncreasing (runInvocation cfg L g) ∧
      outerEdgesEq g (runInvocation cfg L g) := by
  intro cfg L g h
  unfold runInvocation
  split
  · exact ⟨h, rfl, rfl, rfl, rfl, rfl, rfl⟩
  · have hp := balanceLoop_preserves cfg L cfg.max_iterations g h
    exact ⟨hp.1, hp.2.1⟩

/-- Sample balancer configuration used by witnesses. -/
def sampleConfig : BalanceConfig := ⟨true, true, true, 102 / 100, 1⟩

/-- Sample strictly increasing boundary sequence used by witnesses. -/
def sampleAxisB : ℕ → ℚ := fun i => if i = 0 then 0 else if i = 1 then 1 else 2

/-- Sample two-slab-per-axis grid used by witnesses. -/
def sampleGrid : Grid := ⟨2, 2, 2, sampleAxisB, sampleAxisB, sampleAxisB⟩

/-- Sample unbalanced slab load sequence used by witnesses. -/
def sampleLoadFun : ℕ → ℕ := fun i => if i = 0 then 4 else 2

/-- Sample multi-rank load sample used by witnesses. -/
def sampleLoads : Loads :=
  ⟨sampleLoadFun, sampleLoadFun, sampleLoadFun,
   fun i => if i = 0 then 3 else 1, 4⟩

/-- Witness for C2 on a concrete unbalanced four-rank configuration. -/
theorem c2_invocation_preserves_boundary_invariants_witness :
    gridIncreasing (runInvocation sampleConfig sampleLoads sampleGrid) ∧
    outerEdgesEq sampleGrid (runInvocation sampleConfig sampleLoads sampleGrid) :=
  c2_invocation_preserves_boundary_invariants sampleConfig sampleLoads sampleGrid
    (by
      refine ⟨?_, ?_, ?_⟩ <;>
      · show ∀ j, j < 2 → sampleAxisB j < sampleAxisB (j + 1)
        decide)

/-- C3: the shift applied to any interior boundary in a single
AxisRebalancer move is at most 5 percent of the boundary's own slab width
and at most 50 percent of the distance to the neighboring boundary on each
side. -/
theorem c3_shift_magnitude_clamped :
    ∀ (n : ℕ) (load : ℕ → ℕ) (b : ℕ → ℚ) (i : ℕ),
      1 ≤ i → i < n → b (i - 1) < b i → b i < b (i + 1) →
      |moveBoundary n load b i - b i| ≤ 5 / 100 * slabWidth b i ∧
      |moveBoundary n load b i - b i| ≤ 1 / 2 * (b i - b (i - 1)) ∧
      |moveBoundary n load b i - b i| ≤ 1 / 2 * (b (i + 1) - b i) := by
  intro n load b i h1 h2 hbL hbR
  have hgL : 0 ≤ gapL b i := by unfold gapL; linarith
  have hgR : 0 ≤ gapR b i := by unfold gapR; linarith
  have hmb : moveBoundary n load b i = b i + appliedShift load b i := by
    unfold moveBoundary
    rw [if_pos ⟨h1, h2⟩]
  have habs : |appliedShift load b i| ≤ maxShift b i :=
    clampShift_abs_le _ (maxShift_nonneg hgL hgR)
  rw [hmb, add_sub_cancel_left]
  have hminL : maxShift b i ≤ 1 / 2 * gapL b i := by
    calc maxShift b i ≤ 1 / 2 * neighborDist b i := min_le_right _ _
      _ ≤ 1 / 2 * gapL b i := by
          have := min_le_left (gapL b i) (gapR b i)
          unfold neighborDist
          linarith
  have hminR : maxShift b i ≤ 1 / 2 * gapR b i := by
    calc maxShift b i ≤ 1 / 2 * neighborDist b i := min_le_right _ _
      _ ≤ 1 / 2 * gapR b i := by
          have := min_le_right (gapL b i) (gapR b i)
          unfold neighborDist
          linarith
  exact ⟨le_trans habs (min_le_left _ _),
    le_trans habs hminL, le_trans habs hminR⟩

/-- Witness for C3 at the interior boundary of a concrete two-slab axis. -/
theorem c3_shift_magnitude_clamped_witness :
    |moveBoundary 2 sampleLoadFun sampleAxisB 1 - sampleAxisB 1| ≤
      5 / 100 * slabWidth sampleAxisB 1 ∧
    |moveBoundary 2 sampleLoadFun sampleAxisB 1 - sampleAxisB 1| ≤
      1 / 2 * (sampleAxisB 1 - sampleAxisB (1 - 1)) ∧
    |moveBoundary 2 sampleLoadFun sampleAxisB 1 - sampleAxisB 1| ≤
      1 / 2 * (sampleAxisB (1 + 1) - sampleAxisB 1) :=
  c3_shift_magnitude_clamped 2 sampleLoadFun sampleAxisB 1 (by decide)
    (by decide) (by decide) (by decide)

/-- C4: a balancing invocation with no multi-rank decomposition (a single
rank) or with zero total particles returns all boundaries unchanged and
raises no error. -/
theorem c4_trivial_topology_noop :
    ∀ (cfg : BalanceConfig) (L : Loads) (g : Grid),
      L.ranks ≤ 1 ∨ totalParticles L = 0 →
      invoke cfg L g = Except.ok g := by
  intro cfg L g h
  unfold invoke runInvocation
  rw [if_pos h]

/-- Sample single-rank load sample used by witnesses. -/
def singleRankLoads : Loads :=
  ⟨sampleLoadFun, sampleLoadFun, sampleLoadFun,
   fun i => if i = 0 then 3 else 1, 1⟩

/-- Witness for C4 on a concrete single-rank configuration. -/
theorem c4_trivial_topology_noop_witness :
    invoke sampleConfig singleRankLoads sampleGrid = Except.ok sampleGrid :=
  c4_trivial_topology_noop sampleConfig singleRankLoads sampleGrid
    (Or.inl (by decide))
